import Mathlib

/-!
Verification of the Kafka document bridge in kafka.py: a Publisher that
serializes (name, document) pairs and submits them to a broker producer on
the fixed topic, and a RemoteDispatcher that polls a broker consumer,
deserializes each message and dispatches it to local subscribers.  The
broker client (producer and consumer) is an external collaborator: its
visible behavior (queue-full produce failures, poll outcomes, flush) enters
the model as explicit inputs and abstract state.  All loops are modelled on
a finite observed prefix of broker interactions; the receive loop never
exits normally, so running out of the observed prefix means the loop is
still in progress.
-/

namespace BlueskyKafka

/-- The single fixed topic name used by every produce call and by the
consumer subscription in the source (the literal in kafka.py). -/
def blueskyEventTopic : String := "bluesky-event"

/-- A value handed to the broker producer: either a serialized wire message
(the first produce call passes the serializer output) or a raw document
(the retry produce call in the source passes the unserialized document). -/
inductive ProduceValue (Doc Wire : Type) where
  | wire (w : Wire)
  | raw (d : Doc)
deriving DecidableEq

/-- One submission handed to the broker producer: target topic and value. -/
structure Submission (Doc Wire : Type) where
  topic : String
  value : ProduceValue Doc Wire
deriving DecidableEq

/-- State of the broker producer as seen through the bridge: submissions
accepted and still pending in the local outbound queue, and submissions
whose delivery has completed.  Modelled from the spec: the producer is an
external collaborator; its queue and flush contract follows sections 4.1
and 7 of the specification. -/
structure ProducerState (Doc Wire : Type) where
  pending : List (Submission Doc Wire)
  delivered : List (Submission Doc Wire)
deriving DecidableEq

/-- Exceptions the publish call can raise: BufferError from a produce call
on a full outbound queue, and AttributeError from looking up an attribute
that the object does not define. -/
inductive PyExc where
  | bufferError
  | attributeError (attr : String)
deriving DecidableEq

/-- produce: hand one submission to the producer.  Raises BufferError when
the local outbound queue is full; queue fullness at each call is an input,
the broker being external.  On success the submission joins the pending
queue. -/
def produce {Doc Wire : Type} (queueFull : Bool) (st : ProducerState Doc Wire)
    (s : Submission Doc Wire) : Except PyExc (ProducerState Doc Wire) :=
  match queueFull with
  | true => Except.error PyExc.bufferError
  | false => Except.ok { st with pending := st.pending ++ [s] }

/-- poll on the producer serves completed delivery callbacks (and, with a
positive timeout, waits).  It neither adds nor removes submissions in this
abstraction, so it is the identity on the observed producer state. -/
def pollProducer {Doc Wire : Type} (st : ProducerState Doc Wire) :
    ProducerState Doc Wire := st

/-- The attribute names defined on a Publisher instance: the three fields
set in its init method plus the methods of the class.  The module-level
function delivery_report is not among them. -/
def publisherAttrs : List String :=
  ["address", "producer", "_serializer", "__init__", "__call__", "close"]

/-- Attribute lookup on a Publisher instance: some when the attribute is
defined, none (an AttributeError) otherwise. -/
def getattrPublisher (a : String) : Option Unit :=
  if publisherAttrs.contains a then some () else none

/-- The submission built by the retry produce call in the source: topic
bluesky-event and, as its value, the raw unserialized document (the source
passes value equal to doc, not the serializer output). -/
def retrySubmission (Wire : Type) {Doc : Type} (doc : Doc) : Submission Doc Wire :=
  { topic := blueskyEventTopic, value := ProduceValue.raw doc }

/-- Publisher call (publish): deep-copy the document (value semantics here;
object identity is treated by publishSnapshot below), serialize the pair,
submit it to the fixed topic and poll with timeout zero.  On BufferError,
poll with timeout ten to let the queue drain, then evaluate the retry
produce call, whose callback argument looks up the attribute
delivery_report on the Publisher instance before the produce call can run.
fullFirst and fullRetry give the queue-full condition at each produce
attempt. -/
def Publisher.call {Doc Wire : Type} (ser : String × Doc → Wire)
    (fullFirst fullRetry : Bool) (st : ProducerState Doc Wire)
    (name : String) (doc : Doc) : Except PyExc (ProducerState Doc Wire) :=
  let docCopy := doc
  match produce fullFirst st
      { topic := blueskyEventTopic, value := ProduceValue.wire (ser (name, docCopy)) } with
  | Except.ok st1 => Except.ok (pollProducer st1)
  | Except.error _ =>
    let st1 := pollProducer st
    match getattrPublisher "delivery_report" with
    | some _ => produce fullRetry st1 (retrySubmission Wire docCopy)
    | none => Except.error (PyExc.attributeError "delivery_report")

/-- flush: blocks until every pending submission has been delivered or has
permanently failed; afterwards the pending queue is empty and every pending
submission has completed.  Modelled from the spec: flush belongs to the
external broker client; section 4.1 of the specification gives its
contract. -/
def flush {Doc Wire : Type} (st : ProducerState Doc Wire) : ProducerState Doc Wire :=
  { pending := [], delivered := st.delivered ++ st.pending }

/-- Publisher close: flush the producer. -/
def Publisher.close {Doc Wire : Type} (st : ProducerState Doc Wire) :
    ProducerState Doc Wire := flush st

/-- A store of mutable document objects: an address is an index into the
store.  This models Python object identity for the deep-copy claim. -/
structure Heap (Doc : Type) where
  store : List Doc
deriving DecidableEq

/-- Read the document at an address, with a default for absent addresses. -/
def Heap.readD {Doc : Type} (h : Heap Doc) (a : Nat) (d0 : Doc) : Doc :=
  h.store.getD a d0

/-- Mutate the document object at an address in place. -/
def Heap.write {Doc : Type} (h : Heap Doc) (a : Nat) (v : Doc) : Heap Doc :=
  { store := h.store.set a v }

/-- deepcopy: allocate a fresh address holding a copy of the given value. -/
def Heap.alloc {Doc : Type} (h : Heap Doc) (v : Doc) : Heap Doc × Nat :=
  ({ store := h.store ++ [v] }, h.store.length)

/-- The publish entry with explicit object identity: read the caller's
document at its address, deep-copy it to a fresh address, and serialize the
copied value.  Returns the heap after the copy, the copy's address, and the
wire message submitted. -/
def publishSnapshot {Doc Wire : Type} (ser : String × Doc → Wire) (name : String)
    (h : Heap Doc) (a : Nat) (d0 : Doc) : Heap Doc × Nat × Wire :=
  let v := h.readD a d0
  let p := h.alloc v
  (p.1, p.2, ser (name, v))

/-- One outcome of a consumer poll call in the receive loop: a timeout with
no message, a message carrying a broker-reported error, a message carrying
a payload, or an external interruption raised inside the blocking call. -/
inductive PollInput (V : Type) where
  | timeout
  | errMsg
  | msg (v : V)
  | interrupt
deriving DecidableEq

/-- The ways one iteration of the receive loop can raise: an external
interruption, a deserializer failure on a message payload, or an unknown
document name at the DocumentNames lookup. -/
inductive LoopExit (E : Type) where
  | interrupted
  | deserFailed (e : E)
  | nameUnknown (n : String)
deriving DecidableEq

/-- One iteration of the receive loop body: a timeout polls again, a
broker-reported error is printed and the loop continues, a payload is
deserialized into a name and document, the name is looked up in the
DocumentNames enumeration (external to this module) and the pair is
dispatched.  The result is the dispatched pair, if any, or the exception
that escapes the loop. -/
def pollStep {V E Doc DN : Type} (deser : V → Except E (String × Doc))
    (docNames : String → Option DN) :
    PollInput V → Except (LoopExit E) (Option (DN × Doc))
  | PollInput.timeout => Except.ok none
  | PollInput.errMsg => Except.ok none
  | PollInput.interrupt => Except.error LoopExit.interrupted
  | PollInput.msg v =>
    match deser v with
    | Except.error e => Except.error (LoopExit.deserFailed e)
    | Except.ok (name, doc) =>
      match docNames name with
      | none => Except.error (LoopExit.nameUnknown name)
      | some dn => Except.ok (some (dn, doc))

/-- The receive loop run over an observed prefix of poll outcomes: the
dispatched pairs in order, and the exception that escaped the loop, if any.
The loop has no normal exit; exhausting the prefix with no exception means
it is still running. -/
def pollRun {V E Doc DN : Type} (deser : V → Except E (String × Doc))
    (docNames : String → Option DN) :
    List (PollInput V) → List (DN × Doc) × Option (LoopExit E)
  | [] => ([], none)
  | i :: is =>
    match pollStep deser docNames i with
    | Except.error e => ([], some e)
    | Except.ok none => pollRun deser docNames is
    | Except.ok (some p) =>
      let r := pollRun deser docNames is
      (p :: r.1, r.2)

/-- The dispatch a single poll outcome produces when its iteration does not
raise: the deserialized pair after the DocumentNames lookup for a valid
message, nothing for a timeout or a broker-error message. -/
def validOut {V E Doc DN : Type} (deser : V → Except E (String × Doc))
    (docNames : String → Option DN) : PollInput V → Option (DN × Doc)
  | PollInput.msg v =>
    match deser v with
    | Except.ok (name, doc) => (docNames name).map (fun dn => (dn, doc))
    | Except.error _ => none
  | _ => none

/-- Whether one iteration of the loop body on this poll outcome continues
the loop rather than raising. -/
def stepContinues {V E Doc DN : Type} (deser : V → Except E (String × Doc))
    (docNames : String → Option DN) (i : PollInput V) : Bool :=
  match pollStep deser docNames i with
  | Except.ok _ => true
  | Except.error _ => false

/-- Lifecycle state of a RemoteDispatcher: the terminal closed flag and
whether the consumer handle is still open. -/
structure DispatcherState where
  closed : Bool
  consumerOpen : Bool
deriving DecidableEq

/-- RemoteDispatcher stop: close the consumer handle and set the terminal
flag. -/
def RemoteDispatcher.stop (_s : DispatcherState) : DispatcherState :=
  { closed := true, consumerOpen := false }

/-- How a call to start is observed to end over a finite prefix of poll
outcomes: raising the illegal-state error before any poll, still running
with the prefix exhausted, or re-raising a loop exception after stop. -/
inductive StartOutcome (E : Type) where
  | illegalState
  | running
  | raised (e : LoopExit E)
deriving DecidableEq

/-- RemoteDispatcher start: raise the illegal-state error at once when the
instance is already closed; otherwise run the receive loop, and when the
loop raises, call stop and re-raise (the bare except clause in the source
catches every exception).  Returns the final lifecycle state, the pairs
dispatched in order, and the observed outcome. -/
def RemoteDispatcher.start {V E Doc DN : Type} (deser : V → Except E (String × Doc))
    (docNames : String → Option DN) (s : DispatcherState)
    (inputs : List (PollInput V)) :
    DispatcherState × List (DN × Doc) × StartOutcome E :=
  if s.closed then (s, [], StartOutcome.illegalState)
  else
    match pollRun deser docNames inputs with
    | (ds, none) => (s, ds, StartOutcome.running)
    | (ds, some e) => (RemoteDispatcher.stop s, ds, StartOutcome.raised e)

/-- A deserializer for witnesses: every payload deserializes to the name
start with the payload as document. -/
def deserNat : Nat → Except Unit (String × Nat) :=
  fun v => Except.ok ("start", v)

/-- A deserializer for witnesses that fails on payload zero. -/
def deserPoison : Nat → Except Unit (String × Nat) :=
  fun v => if v == 0 then Except.error () else Except.ok ("start", v)

/-- A DocumentNames lookup for witnesses: the name start maps to tag zero. -/
def namesNat : String → Option Nat :=
  fun n => if n == "start" then some 0 else none

/-- When an iteration continues the loop, its dispatch is exactly the one
validOut describes. -/
theorem pollStep_of_continues {V E Doc DN : Type}
    (deser : V → Except E (String × Doc)) (docNames : String → Option DN)
    (i : PollInput V) (h : stepContinues deser docNames i = true) :
    pollStep deser docNames i = Except.ok (validOut deser docNames i) := by
  cases i with
  | timeout => rfl
  | errMsg => rfl
  | interrupt => simp [stepContinues, pollStep] at h
  | msg v =>
    cases hd : deser v with
    | error e =>
      exfalso
      simp [stepContinues, pollStep, hd] at h
    | ok p =>
      obtain ⟨name, doc⟩ := p
      cases hn : docNames name with
      | none =>
        exfalso
        simp [stepContinues, pollStep, hd, hn] at h
      | some dn =>
        simp [pollStep, validOut, hd, hn]

/-- Running the loop over a prefix whose iterations all continue, followed
by more poll outcomes, dispatches the prefix's valid messages in order and
then behaves as the loop over the rest. -/
theorem pollRun_append_of_continues {V E Doc DN : Type}
    (deser : V → Except E (String × Doc)) (docNames : String → Option DN)
    (good : List (PollInput V))
    (h : ∀ i ∈ good, stepContinues deser docNames i = true)
    (is : List (PollInput V)) :
    pollRun deser docNames (good ++ is)
      = (good.filterMap (validOut deser docNames) ++ (pollRun deser docNames is).1,
         (pollRun deser docNames is).2) := by
  induction good with
  | nil => simp [pollRun]
  | cons i js ih =>
    have hi : stepContinues deser docNames i = true := h i (by simp)
    have hjs : ∀ j ∈ js, stepContinues deser docNames j = true :=
      fun j hj => h j (by simp [hj])
    have hstep := pollStep_of_continues deser docNames i hi
    have ihr := ih hjs
    cases hv : validOut deser docNames i with
    | none =>
      simp only [List.cons_append, pollRun, hstep, hv, List.filterMap_cons]
      exact ihr
    | some p =>
      simp only [List.cons_append, pollRun, hstep, hv, List.filterMap_cons]
      simp [ihr]

/-- C10: whenever the first produce submission fails with the queue full
(BufferError), the retry path of Publisher.call evaluates the attribute
delivery_report on the Publisher instance; no such attribute is defined
(delivery_report is a module-level function), so after the bounded wait
every such publish call raises AttributeError, whatever the retry-time
queue condition, before any retry submission can complete. -/
theorem queueFull_retry_attributeError {Doc Wire : Type} (ser : String × Doc → Wire)
    (fullRetry : Bool) (st : ProducerState Doc Wire) (name : String) (doc : Doc) :
    Publisher.call ser true fullRetry st name doc
        = Except.error (PyExc.attributeError "delivery_report")
    ∧ getattrPublisher "delivery_report" = none :=
  ⟨rfl, rfl⟩

/-- C1: the claim fails on the code.  At a publish call whose first produce
attempt finds the queue full and where the queue has drained by retry time
(fullRetry false, so a retried submission would succeed), the call does not
retry and does not surface a queue failure: it raises AttributeError, the
produce retry never executing. -/
theorem publish_queueFull_retry_never_submits :
    Publisher.call (fun p : String × Nat => p.2) true false
        { pending := [], delivered := [] } "start" 0
      = Except.error (PyExc.attributeError "delivery_report") := rfl

/-- C2: the claim fails on the code.  The retry produce call built by the
source carries the raw unserialized document, not the serialized wire
message of the first attempt, and in any case the call raises
AttributeError before the retry submission reaches the producer; only the
first attempt, when the queue is not full, hands the producer the
serialized pair on the fixed topic. -/
theorem publish_retry_value_not_wire :
    retrySubmission Nat (0 : Nat)
        ≠ Submission.mk blueskyEventTopic
            (ProduceValue.wire ((fun p : String × Nat => p.2) ("start", 0)))
    ∧ Publisher.call (fun p : String × Nat => p.2) true false
        { pending := [], delivered := [] } "start" 0
      = Except.error (PyExc.attributeError "delivery_report")
    ∧ Publisher.call (fun p : String × Nat => p.2) false false
        { pending := [], delivered := [] } "start" 0
      = Except.ok
          { pending := [Submission.mk blueskyEventTopic (ProduceValue.wire 0)],
            delivered := [] } :=
  ⟨by decide, rfl, rfl⟩

/-- C8: Publisher close drains the producer: after close every previously
pending submission has completed, in submission order, and the pending
queue is empty; and close is idempotent: a second close raises nothing in
the model, changes nothing, and resubmits no message. -/
theorem close_idempotent_flush {Doc Wire : Type} (st : ProducerState Doc Wire) :
    (Publisher.close st).pending = []
    ∧ (Publisher.close st).delivered = st.delivered ++ st.pending
    ∧ Publisher.close (Publisher.close st) = Publisher.close st := by
  refine ⟨rfl, rfl, ?_⟩
  simp [Publisher.close, flush]

/-- C7: publish takes a deep, independent copy of the document at call
entry and serializes that copy: the wire message equals the serializer
applied to the document value at the moment of the call, it depends only on
that value, and a mutation of the caller's document object after the call
leaves the copied document (and hence the already-computed wire message)
unchanged. -/
theorem publish_snapshot_isolated {Doc Wire : Type} (ser : String × Doc → Wire)
    (name : String) (hp : Heap Doc) (a : Nat) (d0 : Doc) (v2 : Doc)
    (ha : a < hp.store.length) :
    (publishSnapshot ser name hp a d0).2.2 = ser (name, hp.readD a d0)
    ∧ (∀ h2 : Heap Doc, h2.readD a d0 = hp.readD a d0 →
        (publishSnapshot ser name h2 a d0).2.2 = (publishSnapshot ser name hp a d0).2.2)
    ∧ (((publishSnapshot ser name hp a d0).1.write a v2).readD
        (publishSnapshot ser name hp a d0).2.1 d0 = hp.readD a d0) := by
  refine ⟨rfl, ?_, ?_⟩
  · intro h2 h2eq
    simp only [publishSnapshot, Heap.alloc]
    rw [show h2.readD a d0 = hp.readD a d0 from h2eq]
  · simp only [publishSnapshot, Heap.alloc, Heap.write, Heap.readD]
    rw [List.set_append_left _ _ ha]
    rw [List.getD_eq_getElem?_getD]
    rw [show hp.store.length = (hp.store.set a v2).length by simp]
    rw [List.getElem?_concat_length]
    rfl

/-- Witness for publish_snapshot_isolated at a concrete heap. -/
theorem publish_snapshot_isolated_witness :
    (0 < (Heap.mk [10, 20] : Heap Nat).store.length)
    ∧ ((publishSnapshot (fun p : String × Nat => p.2) "start" (Heap.mk [10, 20]) 0 0).2.2
        = (fun p : String × Nat => p.2) ("start", (Heap.mk [10, 20] : Heap Nat).readD 0 0)
      ∧ (∀ h2 : Heap Nat, h2.readD 0 0 = (Heap.mk [10, 20] : Heap Nat).readD 0 0 →
          (publishSnapshot (fun p : String × Nat => p.2) "start" h2 0 0).2.2
            = (publishSnapshot (fun p : String × Nat => p.2) "start" (Heap.mk [10, 20]) 0 0).2.2)
      ∧ (((publishSnapshot (fun p : String × Nat => p.2) "start" (Heap.mk [10, 20]) 0 0).1.write 0 99).readD
          (publishSnapshot (fun p : String × Nat => p.2) "start" (Heap.mk [10, 20]) 0 0).2.1 0
            = (Heap.mk [10, 20] : Heap Nat).readD 0 0)) :=
  ⟨by decide,
   publish_snapshot_isolated (fun p : String × Nat => p.2) "start" (Heap.mk [10, 20]) 0 0 99
     (by decide)⟩

/-- C4: calling start on a RemoteDispatcher whose terminal flag is set
raises the illegal-state error at once: whatever poll outcomes the broker
would have offered, the receive loop is not entered, no poll occurs and no
document is dispatched, and the state is unchanged. -/
theorem start_on_stopped_illegalState {V E Doc DN : Type}
    (deser : V → Except E (String × Doc)) (docNames : String → Option DN)
    (s : DispatcherState) (inputs : List (PollInput V)) (hs : s.closed = true) :
    RemoteDispatcher.start deser docNames s inputs
      = (s, [], StartOutcome.illegalState) := by
  simp [RemoteDispatcher.start, hs]

/-- Witness for start_on_stopped_illegalState on a stopped instance. -/
theorem start_on_stopped_illegalState_witness :
    ((DispatcherState.mk true false).closed = true)
    ∧ RemoteDispatcher.start deserNat namesNat (DispatcherState.mk true false)
        [PollInput.msg 5]
      = (DispatcherState.mk true false, [], StartOutcome.illegalState) :=
  ⟨rfl,
   start_on_stopped_illegalState deserNat namesNat (DispatcherState.mk true false)
     [PollInput.msg 5] rfl⟩

/-- C3: when start runs on an instance that has not been stopped and the
receive loop exits with any exception, stop has run before the exception
propagates: the final state is exactly the stopped state, the consumer
handle is released and the terminal flag is set. -/
theorem start_exception_releases_consumer {V E Doc DN : Type}
    (deser : V → Except E (String × Doc)) (docNames : String → Option DN)
    (s : DispatcherState) (inputs : List (PollInput V)) (e : LoopExit E)
    (hs : s.closed = false)
    (h : (RemoteDispatcher.start deser docNames s inputs).2.2 = StartOutcome.raised e) :
    (RemoteDispatcher.start deser docNames s inputs).1 = RemoteDispatcher.stop s
    ∧ (RemoteDispatcher.start deser docNames s inputs).1.closed = true
    ∧ (RemoteDispatcher.start deser docNames s inputs).1.consumerOpen = false := by
  rcases hp : pollRun deser docNames inputs with ⟨ds, ex⟩
  cases ex with
  | none =>
    exfalso
    simp [RemoteDispatcher.start, hs, hp] at h
  | some e2 =>
    refine ⟨?_, ?_, ?_⟩ <;> simp [RemoteDispatcher.start, hs, hp, RemoteDispatcher.stop]

/-- Witness for start_exception_releases_consumer: an interruption raised
inside the first poll. -/
theorem start_exception_releases_consumer_witness :
    ((DispatcherState.mk false true).closed = false)
    ∧ ((RemoteDispatcher.start deserNat namesNat (DispatcherState.mk false true)
          [PollInput.interrupt]).2.2 = StartOutcome.raised LoopExit.interrupted)
    ∧ ((RemoteDispatcher.start deserNat namesNat (DispatcherState.mk false true)
          [PollInput.interrupt]).1 = RemoteDispatcher.stop (DispatcherState.mk false true)
      ∧ (RemoteDispatcher.start deserNat namesNat (DispatcherState.mk false true)
          [PollInput.interrupt]).1.closed = true
      ∧ (RemoteDispatcher.start deserNat namesNat (DispatcherState.mk false true)
          [PollInput.interrupt]).1.consumerOpen = false) :=
  ⟨rfl, rfl,
   start_exception_releases_consumer deserNat namesNat (DispatcherState.mk false true)
     [PollInput.interrupt] LoopExit.interrupted rfl rfl⟩

/-- C5: poll iterations that time out or yield a broker-error message
dispatch nothing and leave the loop running, and after any run of such
iterations a subsequent valid message is still deserialized and
dispatched. -/
theorem poll_noise_then_valid_dispatch {V E Doc DN : Type}
    (deser : V → Except E (String × Doc)) (docNames : String → Option DN)
    (noise : List (PollInput V)) (v : V) (name : String) (doc : Doc) (dn : DN)
    (hnoise : ∀ i ∈ noise, i = PollInput.timeout ∨ i = PollInput.errMsg)
    (hv : deser v = Except.ok (name, doc)) (hdn : docNames name = some dn) :
    pollRun deser docNames noise = ([], none)
    ∧ pollRun deser docNames (noise ++ [PollInput.msg v]) = ([(dn, doc)], none) := by
  have hcont : ∀ i ∈ noise, stepContinues deser docNames i = true := by
    intro i hi
    rcases hnoise i hi with h1 | h1 <;> subst h1 <;> rfl
  have hout : ∀ i ∈ noise, validOut deser docNames i = none := by
    intro i hi
    rcases hnoise i hi with h1 | h1 <;> subst h1 <;> rfl
  have hfm : noise.filterMap (validOut deser docNames) = [] :=
    List.filterMap_eq_nil_iff.mpr hout
  have hsingle : pollRun deser docNames [PollInput.msg v] = ([(dn, doc)], none) := by
    simp [pollRun, pollStep, hv, hdn]
  constructor
  · have happ0 := pollRun_append_of_continues deser docNames noise hcont []
    simpa [hfm, pollRun] using happ0
  · have happ := pollRun_append_of_continues deser docNames noise hcont [PollInput.msg v]
    rw [hsingle] at happ
    simpa [hfm] using happ

/-- Witness for poll_noise_then_valid_dispatch: a timeout and a broker
error followed by a valid message. -/
theorem poll_noise_then_valid_dispatch_witness :
    (∀ i ∈ ([PollInput.timeout, PollInput.errMsg] : List (PollInput Nat)),
        i = PollInput.timeout ∨ i = PollInput.errMsg)
    ∧ deserNat 7 = Except.ok ("start", 7)
    ∧ namesNat "start" = some 0
    ∧ (pollRun deserNat namesNat [PollInput.timeout, PollInput.errMsg] = ([], none)
      ∧ pollRun deserNat namesNat
          ([PollInput.timeout, PollInput.errMsg] ++ [PollInput.msg 7])
        = ([(0, 7)], none)) :=
  ⟨by decide, rfl, rfl,
   poll_noise_then_valid_dispatch deserNat namesNat
     [PollInput.timeout, PollInput.errMsg] 7 "start" 7 0 (by decide) rfl rfl⟩

/-- C6: when no iteration of the receive loop raises, the dispatched pairs
are exactly the deserialized valid messages in receipt order, one dispatch
per message; the loop body is sequential, so dispatch calls never
overlap. -/
theorem dispatch_order_filterMap {V E Doc DN : Type}
    (deser : V → Except E (String × Doc)) (docNames : String → Option DN)
    (inputs : List (PollInput V))
    (h : (pollRun deser docNames inputs).2 = none) :
    (pollRun deser docNames inputs).1
      = inputs.filterMap (validOut deser docNames) := by
  induction inputs with
  | nil => rfl
  | cons i is ih =>
    rcases hstep : pollStep deser docNames i with e | o
    · exfalso
      have hrun : pollRun deser docNames (i :: is) = ([], some e) := by
        simp [pollRun, hstep]
      rw [hrun] at h
      simp at h
    · have hcont : stepContinues deser docNames i = true := by
        simp [stepContinues, hstep]
      have h2 := pollStep_of_continues deser docNames i hcont
      rw [hstep] at h2
      injection h2 with ho
      cases hvrw : validOut deser docNames i with
      | none =>
        rw [hvrw] at ho
        rw [ho] at hstep
        have hrun : pollRun deser docNames (i :: is) = pollRun deser docNames is := by
          simp [pollRun, hstep]
        rw [hrun] at h
        rw [hrun, ih h, List.filterMap_cons, hvrw]
      | some p =>
        rw [hvrw] at ho
        rw [ho] at hstep
        have hrun : pollRun deser docNames (i :: is)
            = (p :: (pollRun deser docNames is).1, (pollRun deser docNames is).2) := by
          simp [pollRun, hstep]
        rw [hrun] at h
        simp only at h
        rw [hrun]
        simp only [List.filterMap_cons, hvrw]
        rw [ih h]

/-- Witness for dispatch_order_filterMap: two valid messages around a
timeout are dispatched in order. -/
theorem dispatch_order_filterMap_witness :
    ((pollRun deserNat namesNat [PollInput.msg 1, PollInput.timeout, PollInput.msg 2]).2
      = none)
    ∧ (pollRun deserNat namesNat [PollInput.msg 1, PollInput.timeout, PollInput.msg 2]).1
      = ([PollInput.msg 1, PollInput.timeout, PollInput.msg 2] : List (PollInput Nat)).filterMap
          (validOut deserNat namesNat) :=
  ⟨rfl,
   dispatch_order_filterMap deserNat namesNat
     [PollInput.msg 1, PollInput.timeout, PollInput.msg 2] rfl⟩

/-- C9: a message whose payload the deserializer rejects terminates the
instance: the messages before it are dispatched, the exception escapes the
loop, start calls stop (consumer released, terminal flag set) and re-raises
it, and nothing after the poisoned message is dispatched. -/
theorem poison_message_terminates_loop {V E Doc DN : Type}
    (deser : V → Except E (String × Doc)) (docNames : String → Option DN)
    (good : List (PollInput V)) (v : V) (rest : List (PollInput V)) (e : E)
    (s : DispatcherState) (hs : s.closed = false)
    (hgood : ∀ i ∈ good, stepContinues deser docNames i = true)
    (hpoison : deser v = Except.error e) :
    RemoteDispatcher.start deser docNames s (good ++ PollInput.msg v :: rest)
      = (DispatcherState.mk true false,
         good.filterMap (validOut deser docNames),
         StartOutcome.raised (LoopExit.deserFailed e)) := by
  have hrun : pollRun deser docNames (PollInput.msg v :: rest)
      = ([], some (LoopExit.deserFailed e)) := by
    simp [pollRun, pollStep, hpoison]
  have happ := pollRun_append_of_continues deser docNames good hgood
    (PollInput.msg v :: rest)
  rw [hrun] at happ
  simp only [List.append_nil] at happ
  simp [RemoteDispatcher.start, hs, happ, RemoteDispatcher.stop]

/-- Witness for poison_message_terminates_loop: a valid message, then a
poisoned one, then a message that is never dispatched. -/
theorem poison_message_terminates_loop_witness :
    (((DispatcherState.mk false true).closed = false)
    ∧ (∀ i ∈ ([PollInput.timeout, PollInput.msg 3] : List (PollInput Nat)),
        stepContinues deserPoison namesNat i = true)
    ∧ deserPoison 0 = Except.error ())
    ∧ RemoteDispatcher.start deserPoison namesNat (DispatcherState.mk false true)
        ([PollInput.timeout, PollInput.msg 3] ++ PollInput.msg 0 :: [PollInput.msg 4])
      = (DispatcherState.mk true false,
         ([PollInput.timeout, PollInput.msg 3] : List (PollInput Nat)).filterMap
           (validOut deserPoison namesNat),
         StartOutcome.raised (LoopExit.deserFailed ())) :=
  ⟨⟨rfl, by decide, rfl⟩,
   poison_message_terminates_loop deserPoison namesNat
     [PollInput.timeout, PollInput.msg 3] 0 [PollInput.msg 4] ()
     (DispatcherState.mk false true) rfl (by decide) rfl⟩

end BlueskyKafka
